import Mathlib

/-!
Verification of the cascading multi-facet filter engine of the Atlantic
Housing Innovation Strategy dashboard (src/app.py).

The embedding models a pandas DataFrame as a `List Record`, where each raw
cell is an `Option String` (`none` = a missing cell, which pandas reads as
the float NaN).  Python's `str()` applied to such a NaN cell renders the
string "nan"; `pyStr` models that conversion.  The derived token columns
added by `preprocess_tokens` are pure functions of the raw cells, so they
are modelled as the function `tokenize` rather than as stored fields.
The filesystem check `os.path.exists` in `preprocess_tokens` is modelled
as an oracle `hasImage : String → Bool` on the record's ID.
-/

namespace App

/-- Whitespace characters removed by Python's `str.strip()` (ASCII range). -/
def isPyWs (c : Char) : Bool :=
  c = ' ' || c = '\t' || c = '\n' || c = '\r' || c = '\x0b' || c = '\x0c'

/-- Python `str.strip()`: drop leading and trailing whitespace. -/
def strip (s : String) : String :=
  String.mk (((s.data.dropWhile isPyWs).reverse.dropWhile isPyWs).reverse)

/-- Helper for `splitOnChar`: accumulate the current piece (in reverse). -/
def splitOnCharAux (sep : Char) : List Char → List Char → List (List Char)
  | [], acc => [acc.reverse]
  | c :: cs, acc =>
    if c = sep then acc.reverse :: splitOnCharAux sep cs []
    else splitOnCharAux sep cs (c :: acc)

/-- Python `str.split(sep)` for a one-character separator:
`"".split(",") = [""]`, `"a,,b".split(",") = ["a","","b"]`. -/
def splitOnChar (sep : Char) (s : String) : List String :=
  (splitOnCharAux sep s.data []).map String.mk

/-- Python `str(cell)` applied to a pandas cell: a missing cell is the float
NaN, which `str` renders as "nan"; a present cell is the string itself. -/
def pyStr (cell : Option String) : String :=
  match cell with
  | none => "nan"
  | some s => s

/-- The tokenizing lambda of `preprocess_tokens` (src/app.py lines 36-41):
`[part.strip() for part in str(cell).split(",") if part.strip() != ""]`. -/
def tokenize (cell : Option String) : List String :=
  ((splitOnChar ',' (pyStr cell)).map strip).filter (fun t => t != "")

/-- One row of the spreadsheet after `load_data`.  Each raw cell is
`Option String`; `none` stands for a missing (NaN) cell.  The displayed
"Expected Timeline" column is `pyStr timelineCell` (`astype(str)`). -/
structure Record where
  id : String
  category : Option String
  subcategory : Option String
  locationCell : Option String
  stakeholderCell : Option String
  timelineCell : Option String
deriving DecidableEq, Repr

/-- The five session-state selection lists of src/app.py. -/
structure Selections where
  categoryFilter : List String
  subcategoryFilter : List String
  locationFilter : List String
  stakeholderFilter : List String
  timelineFilter : List String
deriving DecidableEq, Repr

/-- The state after `reset_filters`: every selection list empty. -/
def emptySelections : Selections := ⟨[], [], [], [], []⟩

/-- pandas `column.isin(sel)` on a nullable string column: a NaN cell is
never a member of a list of strings. -/
def cellIsin (sel : List String) (v : Option String) : Bool :=
  match v with
  | some c => sel.contains c
  | none => false

/-- `filter_df` (src/app.py lines 74-100): five successive conditional
filters, each applied only when its selection list is non-empty (Python
truthiness of a list).  Category and subcategory use `isin`, location and
stakeholder use `any(l in tokens for l in sel)` over the token columns,
timeline uses `isin` on the string column `pyStr timelineCell`. -/
def filter_df (D : List Record) (S : Selections) : List Record :=
  let d1 := if S.categoryFilter.isEmpty then D
            else D.filter (fun r => cellIsin S.categoryFilter r.category)
  let d2 := if S.subcategoryFilter.isEmpty then d1
            else d1.filter (fun r => cellIsin S.subcategoryFilter r.subcategory)
  let d3 := if S.locationFilter.isEmpty then d2
            else d2.filter (fun r =>
              S.locationFilter.any (fun l => (tokenize r.locationCell).contains l))
  let d4 := if S.stakeholderFilter.isEmpty then d3
            else d3.filter (fun r =>
              S.stakeholderFilter.any (fun s => (tokenize r.stakeholderCell).contains s))
  let d5 := if S.timelineFilter.isEmpty then d4
            else d4.filter (fun r => S.timelineFilter.contains (pyStr r.timelineCell))
  d5

/-- The per-record predicate `filter_df` computes: the conjunction of the
five facet constraints, where an empty selection imposes no constraint. -/
def matchesRec (S : Selections) (r : Record) : Bool :=
  (S.categoryFilter.isEmpty || cellIsin S.categoryFilter r.category) &&
  (S.subcategoryFilter.isEmpty || cellIsin S.subcategoryFilter r.subcategory) &&
  (S.locationFilter.isEmpty ||
    S.locationFilter.any (fun l => (tokenize r.locationCell).contains l)) &&
  (S.stakeholderFilter.isEmpty ||
    S.stakeholderFilter.any (fun s => (tokenize r.stakeholderCell).contains s)) &&
  (S.timelineFilter.isEmpty || S.timelineFilter.contains (pyStr r.timelineCell))

/-- Lexicographic comparison of characters by code point, as Python compares
strings. -/
def lexLe : List Char → List Char → Bool
  | [], _ => true
  | _ :: _, [] => false
  | a :: as, b :: bs => if a < b then true else if b < a then false else lexLe as bs

/-- String comparison used by Python's `sorted` on strings. -/
def strLe (a b : String) : Bool := lexLe a.data b.data

/-- Insert a string into a sorted list (insertion sort step). -/
def insertSorted (x : String) : List String → List String
  | [] => [x]
  | y :: ys => if strLe x y then x :: y :: ys else y :: insertSorted x ys

/-- Python `sorted` on a list of strings (insertion sort; membership is all
the claims need, and insertion sort is stable and total on `strLe`). -/
def sortStrings : List String → List String
  | [] => []
  | x :: xs => insertSorted x (sortStrings xs)

/-- `category_options` (src/app.py line 105):
`sorted(filtered_for_options["Category"].dropna().unique())`, where
`filtered_for_options = filter_df()` is the dataset filtered by ALL current
selections.  `dropna` is `filterMap`, `unique` is deduplication. -/
def category_options (D : List Record) (S : Selections) : List String :=
  sortStrings ((filter_df D S).filterMap (fun r => r.category)).dedup

/-- `location_options` (src/app.py lines 111-115): the set of raw
comma-split pieces of the "Location Identified" cells of the filtered rows
— note: split WITHOUT stripping, and NaN cells contribute nothing
(`cell.split(",") if pd.notna(cell) else []`). -/
def location_options (D : List Record) (S : Selections) : List String :=
  sortStrings ((filter_df D S).flatMap (fun r =>
    match r.locationCell with
    | some cell => splitOnChar ',' cell
    | none => [])).dedup

/-- Selection sanitization (src/app.py lines 106, 109, 116, 123, 126):
`[v for v in selection if v in options]`. -/
def sanitize (sel options : List String) : List String :=
  sel.filter (fun v => options.contains v)

/-- `preprocess_tokens` (src/app.py lines 33-43) restricted to its
row-level effect: the token columns it adds are the pure function
`tokenize` of the raw cells (modelled as derived functions), and the rows
are filtered to those whose image asset exists — the code sets a
`has_image` column to `os.path.exists` of `assets/<ID>.png` and returns
only the rows where it is true.  The filesystem is modelled as the oracle
`hasImage` on the ID. -/
def preprocess_tokens (D : List Record) (hasImage : String → Bool) : List Record :=
  D.filter (fun r => hasImage r.id)

/-- Parse a list of decimal digit characters as a natural number;
`none` when empty or containing a non-digit. -/
def parseNatAux : List Char → Nat → Option Nat
  | [], acc => some acc
  | c :: cs, acc =>
    if c.isDigit then parseNatAux cs (acc * 10 + (c.toNat - 48)) else none

/-- Integer parsing of a character list (non-negative; a sign or any
non-digit fails). -/
def parseNatChars (cs : List Char) : Option Nat :=
  if cs.isEmpty then none else parseNatAux cs 0

/-- Modelled from the spec: the Timeline Normalizer `parse_timeline`
(spec section 4.2), which does NOT exist anywhere in src/app.py.  Rules in
order: a trimmed value with a single `-` separating two integer-parsable
substrings is `(start, end)`; else a trimmed value parsing as a single
integer `Y` is `(Y, Y)`; else absent. -/
def parse_timeline_spec (v : Option String) : Option (Nat × Nat) :=
  match v with
  | none => none
  | some s =>
    let t := (strip s).data
    match splitOnCharAux '-' t [] with
    | [a, b] =>
      match parseNatChars a, parseNatChars b with
      | some x, some y => some (x, y)
      | _, _ =>
        match parseNatChars t with
        | some y => some (y, y)
        | none => none
    | _ =>
      match parseNatChars t with
      | some y => some (y, y)
      | none => none

/-- Modelled from the spec: the timeline matching rule of spec section 4.3
— a record matches a set of selected years iff its parsed timeline
interval is present and at least one selected year lies in the closed
interval `[start, end]`. -/
def timeline_matches_spec (years : List Nat) (r : Record) : Bool :=
  match parse_timeline_spec r.timelineCell with
  | some (a, b) => years.any (fun y => a ≤ y && y ≤ b)
  | none => false

/-- A selection state that selects only a location value `L`. -/
def locationOnly (L : String) : Selections := ⟨[], [], [L], [], []⟩

/-- A selection state that selects only timeline values `ts`. -/
def timelineOnly (ts : List String) : Selections := ⟨[], [], [], [], ts⟩

/-- Two-record dataset with categories "A" and "B" and no other data. -/
def D1 : List Record :=
  [⟨"1", some "A", none, none, none, none⟩, ⟨"2", some "B", none, none, none, none⟩]

/-- Selection of category "A" only. -/
def selCategoryA : Selections := ⟨["A"], [], [], [], []⟩

/-- A record whose Expected Timeline cell is the year range "2024-2026". -/
def rRange : Record := ⟨"1", none, none, none, none, some "2024-2026"⟩

/-- Selection of the timeline value "2025" only. -/
def selYear2025 : Selections := timelineOnly ["2025"]

/-- One-record dataset for the asset-pruning counterexample. -/
def D5 : List Record := [⟨"7", some "Housing", none, none, none, none⟩]

/-- One-record dataset for cascading exclusion: location "NB", category
"Finance". -/
def D6 : List Record := [⟨"2", some "Finance", none, some "NB", none, some "2025"⟩]

/-- The end-to-end scenario record of spec section 8: location cell
"NS, NB" (with a space after the comma). -/
def rNSNB : Record := ⟨"3", some "Housing", none, some "NS, NB", none, some "2022-2024"⟩

/-- Selection of the location option " NB" exactly as the untrimmed option
list offers it. -/
def selLocSpaceNB : Selections := ⟨[], [], [" NB"], [], []⟩

theorem cond_filter_eq (b : Bool) (p : Record → Bool) (l : List Record) :
    (if b then l else l.filter p) = l.filter (fun r => b || p r) := by
  cases b
  · simp
  · simp

theorem bool_and_rev : ∀ a b c d e : Bool,
    (a && b && c && d && e) = (e && d && c && b && a) := by
  decide

theorem filter_df_eq_filter (D : List Record) (S : Selections) :
    filter_df D S = D.filter (matchesRec S) := by
  have key : D.filter (matchesRec S) = filter_df D S := by
    simp only [filter_df]
    rw [cond_filter_eq, cond_filter_eq, cond_filter_eq, cond_filter_eq, cond_filter_eq]
    rw [List.filter_filter, List.filter_filter, List.filter_filter, List.filter_filter]
    exact List.filter_congr fun r hr => by
      simp only [matchesRec]
      exact bool_and_rev _ _ _ _ _
  exact key.symm

theorem mem_insertSorted (x a : String) (l : List String) :
    a ∈ insertSorted x l ↔ a = x ∨ a ∈ l := by
  induction l with
  | nil => simp [insertSorted]
  | cons y ys ih =>
    simp only [insertSorted]
    split
    · simp [List.mem_cons]
    · simp only [List.mem_cons, ih]
      tauto

theorem mem_sortStrings (a : String) (l : List String) :
    a ∈ sortStrings l ↔ a ∈ l := by
  induction l with
  | nil => simp [sortStrings]
  | cons x xs ih => simp [sortStrings, mem_insertSorted, ih]

theorem mem_category_options (D : List Record) (S : Selections) (c : String) :
    c ∈ category_options D S ↔ ∃ r ∈ filter_df D S, r.category = some c := by
  simp [category_options, mem_sortStrings, List.mem_dedup, List.mem_filterMap]

theorem mem_location_options (D : List Record) (S : Selections) (v : String) :
    v ∈ location_options D S ↔
      ∃ r ∈ filter_df D S, ∃ cell, r.locationCell = some cell ∧ v ∈ splitOnChar ',' cell := by
  simp only [location_options, mem_sortStrings, List.mem_dedup, List.mem_flatMap]
  constructor
  · rintro ⟨r, hr, hv⟩
    cases h : r.locationCell with
    | none => rw [h] at hv; simp at hv
    | some cell => rw [h] at hv; exact ⟨r, hr, cell, h, hv⟩
  · rintro ⟨r, hr, cell, hcell, hv⟩
    exact ⟨r, hr, by rw [hcell]; exact hv⟩

/-- C1 counterexample: the code computes every facet's option list from
`filtered_for_options = filter_df()`, which applies ALL selections
including the category facet's own.  On the two-category dataset `D1`,
changing only the category selection from empty to `["A"]` (no
non-category filter active, so non-category filters allow both categories)
shrinks the category option list from `["A", "B"]` to `["A"]`, dropping
"B".  This falsifies the claimed self-exclusion. -/
theorem C1_self_exclusion_counterexample :
    category_options D1 emptySelections = ["A", "B"] ∧
    category_options D1 selCategoryA = ["A"] := by
  decide

/-- C1 (amended): the option list for the category facet is derived from
the records matching ALL current selections — including the category
facet's own selection: a category `c` is offered iff some record of the
fully filtered result carries it. -/
theorem C1_options_from_full_selection (D : List Record) (S : Selections) (c : String) :
    c ∈ category_options D S ↔ ∃ r ∈ filter_df D S, r.category = some c :=
  mem_category_options D S c

/-- C2 counterexample: the record `rRange` carries the timeline cell
"2024-2026"; under the claimed interval semantics the selected year 2025
lies in [2024, 2026] so the record matches (`timeline_matches_spec`,
modelled from the spec, confirms this and the claimed parser examples),
yet the code's filter — exact string membership of the "Expected
Timeline" column in the selection — excludes it. -/
theorem C2_timeline_interval_counterexample :
    timeline_matches_spec [2025] rRange = true ∧
    filter_df [rRange] selYear2025 = [] ∧
    parse_timeline_spec (some "2024") = some (2024, 2024) ∧
    parse_timeline_spec (some "2024-2026") = some (2024, 2026) ∧
    parse_timeline_spec (some "n/a") = none := by
  decide

/-- C2 (amended): the timeline selection is a set of strings, and a record
satisfies the timeline constraint iff its "Expected Timeline" string (the
raw cell rendered by `str`, a missing cell rendering as "nan") is an exact
member of the selection; no interval parsing takes place. -/
theorem C2_timeline_exact_string (D : List Record) (ts : List String) (r : Record) :
    r ∈ filter_df D (timelineOnly ts) ↔
      r ∈ D ∧ (ts = [] ∨ pyStr r.timelineCell ∈ ts) := by
  rw [filter_df_eq_filter, List.mem_filter]
  simp [matchesRec, timelineOnly, List.isEmpty_iff, List.elem_iff]

/-- C3: for every dataset and selection state, `filter_df` returns exactly
the records satisfying the conjunction of the non-empty facet constraints
(`matchesRec`: exact membership for category and subcategory, a shared
token for location and stakeholder, exact string membership for timeline),
as a sublist of the dataset, hence preserving the original order. -/
theorem C3_filter_conjunction (D : List Record) (S : Selections) :
    filter_df D S = D.filter (matchesRec S) ∧ (filter_df D S).Sublist D := by
  refine ⟨filter_df_eq_filter D S, ?_⟩
  rw [filter_df_eq_filter]
  exact List.filter_sublist D

/-- C4: evaluation of the tokenizing lambda of `preprocess_tokens` at a
missing (NaN) cell: `str(nan)` is "nan", so the code yields the
one-element placeholder token list `["nan"]`, not the empty sequence the
spec requires. -/
theorem C4_tokenize_missing_is_nan : tokenize none = ["nan"] := by
  decide

/-- C5 counterexample: `preprocess_tokens` keeps only the rows whose image
asset exists; when no asset exists (oracle constantly false) the non-empty
dataset `D5` is pruned to `[]`, so the record set handed to the filter
engine does not equal the loaded dataset. -/
theorem C5_no_pruning_counterexample :
    preprocess_tokens D5 (fun _ => false) = [] ∧ D5 ≠ [] := by
  decide

/-- C5 (amended): `preprocess_tokens` checks image-asset existence per
record (the filesystem modelled as an oracle on the record's ID) and keeps
exactly the records whose asset exists, in order, passing the surviving
identifiers through unmodified. -/
theorem C5_asset_pruning (D : List Record) (hasImage : String → Bool) :
    (∀ r, r ∈ preprocess_tokens D hasImage ↔ r ∈ D ∧ hasImage r.id = true) ∧
    ((preprocess_tokens D hasImage).map Record.id).Sublist (D.map Record.id) := by
  constructor
  · intro r
    simp [preprocess_tokens, List.mem_filter]
  · exact (List.filter_sublist D).map Record.id

/-- C6: cascading exclusion — if selecting only location `L` yields zero
records with category `C`, then `C` is not in the category option list
computed under that selection. -/
theorem C6_cascading_exclusion (D : List Record) (L C : String)
    (h : ∀ r ∈ filter_df D (locationOnly L), r.category ≠ some C) :
    C ∉ category_options D (locationOnly L) := by
  intro hC
  rcases (mem_category_options D (locationOnly L) C).mp hC with ⟨r, hr, hcat⟩
  exact h r hr hcat

/-- C6 witness: on the dataset `D6` the location selection "ZZ" matches no
record, so no filtered record has category "Housing", and indeed "Housing"
is not offered as a category option. -/
theorem C6_cascading_exclusion_witness :
    (∀ r ∈ filter_df D6 (locationOnly "ZZ"), r.category ≠ some "Housing") ∧
    "Housing" ∉ category_options D6 (locationOnly "ZZ") :=
  ⟨by decide, C6_cascading_exclusion D6 "ZZ" "Housing" (by decide)⟩

/-- C7: filtering with every selection empty is the identity: each of the
five conditional filters is skipped, and the dataset is returned with the
same records in the same order. -/
theorem C7_empty_selection_identity (D : List Record) :
    filter_df D emptySelections = D := rfl

/-- C8: the filter is idempotent — re-filtering an already-filtered
dataset with the same selection state returns the same result. -/
theorem C8_filter_idempotent (D : List Record) (S : Selections) :
    filter_df (filter_df D S) S = filter_df D S := by
  simp only [filter_df_eq_filter, List.filter_filter, Bool.and_self]

/-- C9: sanitization keeps exactly the selected values present in the
option list (so a value absent from the options never survives) and is a
sublist of the original selection, preserving the relative order of the
surviving values. -/
theorem C9_sanitize_exact (sel opts : List String) :
    (∀ v, v ∈ sanitize sel opts ↔ v ∈ sel ∧ v ∈ opts) ∧
    (sanitize sel opts).Sublist sel := by
  constructor
  · intro v
    simp [sanitize, List.mem_filter, List.elem_iff]
  · exact List.filter_sublist sel

/-- C10: the location option list splits the raw cell on commas WITHOUT
trimming while record matching uses trimmed tokens; on the dataset whose
one record carries the cell "NS, NB", the option " NB" (leading space) is
offered, the record's tokens are the trimmed ["NS", "NB"], and selecting
the offered option " NB" yields the empty result. -/
theorem C10_option_token_whitespace_mismatch :
    " NB" ∈ location_options [rNSNB] emptySelections ∧
    tokenize rNSNB.locationCell = ["NS", "NB"] ∧
    filter_df [rNSNB] selLocSpaceNB = [] := by
  decide

end App
